import Mathlib

/-!
# Verification of the Veritax tax-computation and safety pipeline

Shallow embedding of the computational core of the repository
(`tax_engine.py`, `depreciation.py`, `deductions.py`, `audit_rules.py`,
`compliance.py`, `risk_scoring.py`, `escalation.py`) and proofs of the
frozen claims about it.

Python numbers are modelled as exact rationals (`ℚ`); `round(x, 2)` is
modelled as rounding to the nearest cent with ties broken to the even
cent (banker's rounding, Python's documented `round` semantics).
Fallible Python code (dict lookups that can raise `KeyError`, list
indexing that can raise `IndexError`, `ValueError` raises) is modelled
with `Option`.
-/

/-! ## Rounding primitives -/

/-- Floor of a rational as an integer (`q.num / q.den` with integer
flooring division — the denominator of a `Rat` is positive). -/
def qfloor (x : ℚ) : ℤ := x.num / (x.den : ℤ)

/-- Python's `round` to an integer: nearest integer, ties to even. -/
def pyRound (x : ℚ) : ℤ :=
  let f := qfloor x
  let frac := x - (f : ℚ)
  if frac < 1/2 then f
  else if 1/2 < frac then f + 1
  else if f % 2 = 0 then f else f + 1

/-- Python's `round(x, 2)`: round to the nearest cent, ties to even. -/
def round2 (x : ℚ) : ℚ := (pyRound (x * 100) : ℚ) / 100

/-- `x` is a whole number of cents. -/
def Cents (x : ℚ) : Prop := ∃ k : ℤ, x = (k : ℚ) / 100

theorem qfloor_intCast (k : ℤ) : qfloor (k : ℚ) = k := by
  simp [qfloor, Rat.num_intCast, Rat.den_intCast]

theorem pyRound_intCast (k : ℤ) : pyRound (k : ℚ) = k := by
  simp [pyRound, qfloor_intCast]

theorem cents_round2 (x : ℚ) : Cents (round2 x) := ⟨pyRound (x * 100), rfl⟩

theorem round2_eq_of_cents {x : ℚ} (h : Cents x) : round2 x = x := by
  obtain ⟨k, rfl⟩ := h
  have h100 : ((k : ℚ) / 100) * 100 = (k : ℚ) := by ring
  rw [round2, h100, pyRound_intCast]

theorem cents_add {x y : ℚ} (hx : Cents x) (hy : Cents y) : Cents (x + y) := by
  obtain ⟨a, rfl⟩ := hx
  obtain ⟨b, rfl⟩ := hy
  exact ⟨a + b, by push_cast; ring⟩

theorem cents_sub {x y : ℚ} (hx : Cents x) (hy : Cents y) : Cents (x - y) := by
  obtain ⟨a, rfl⟩ := hx
  obtain ⟨b, rfl⟩ := hy
  exact ⟨a - b, by push_cast; ring⟩

theorem cents_zero : Cents 0 := ⟨0, by norm_num⟩

theorem cents_sum {l : List ℚ} (h : ∀ x ∈ l, Cents x) : Cents l.sum := by
  induction l with
  | nil => simpa using cents_zero
  | cons a l ih =>
      simp only [List.sum_cons]
      exact cents_add (h a (by simp)) (ih fun x hx => h x (by simp [hx]))

theorem round2_eq_of (x : ℚ) (k : ℤ) (h : x * 100 = (k : ℚ)) :
    round2 x = x :=
  round2_eq_of_cents ⟨k, by rw [← h]; ring⟩

theorem round2_intCast (k : ℤ) : round2 (k : ℚ) = k :=
  round2_eq_of _ (100 * k) (by push_cast; ring)

theorem round2_zero : round2 0 = 0 := round2_eq_of_cents cents_zero

theorem qfloor_eq_floor (x : ℚ) : qfloor x = ⌊x⌋ := Rat.floor_def.symm

theorem qfloor_eq_of {k : ℤ} {x : ℚ} (h1 : (k : ℚ) ≤ x) (h2 : x < k + 1) :
    qfloor x = k := by
  rw [qfloor_eq_floor]
  exact Int.floor_eq_iff.mpr ⟨h1, h2⟩

theorem pyRound_eq_of_lt {k : ℤ} {x : ℚ} (h1 : (k : ℚ) ≤ x)
    (h2 : x - k < 1/2) : pyRound x = k := by
  unfold pyRound
  rw [qfloor_eq_of h1 (by linarith)]
  simp only [if_pos h2]

theorem pyRound_eq_of_gt {k : ℤ} {x : ℚ} (h2 : (1:ℚ)/2 < x - k)
    (h3 : x < k + 1) : pyRound x = k + 1 := by
  unfold pyRound
  rw [qfloor_eq_of (by linarith) h3]
  rw [if_neg (by linarith), if_pos h2]

theorem pyRound_eq_of_tie_even {k : ℤ} {x : ℚ} (h : x - k = 1/2)
    (he : k % 2 = 0) : pyRound x = k := by
  unfold pyRound
  rw [qfloor_eq_of (by linarith) (by linarith)]
  rw [if_neg (by linarith), if_neg (by linarith), if_pos he]

/-! ## Depreciation engine (`depreciation.py`) -/

/-- MACRS GDS half-year percentage table, keyed by recovery period.
An unsupported period is a failed lookup (`KeyError`). -/
def MACRS_GDS_HALF_YEAR (p : ℤ) : Option (List ℚ) :=
  if p = 3 then some [0.3333, 0.4445, 0.1481, 0.0741]
  else if p = 5 then some [0.20, 0.32, 0.192, 0.1152, 0.1152, 0.0576]
  else if p = 7 then some [0.1429, 0.2449, 0.1749, 0.1249, 0.0893, 0.0892, 0.0893, 0.0446]
  else if p = 10 then some [0.10, 0.18, 0.144, 0.1152, 0.0922, 0.0737, 0.0655,
    0.0655, 0.0656, 0.0655, 0.0328]
  else if p = 15 then some [0.05, 0.095, 0.0855, 0.077, 0.0693, 0.0623, 0.059,
    0.059, 0.0591, 0.059, 0.0591, 0.059, 0.0591, 0.059, 0.0295]
  else if p = 20 then some [0.0375, 0.0722, 0.0668, 0.0618, 0.0571, 0.0529,
    0.0489, 0.0452, 0.0446, 0.0446, 0.0446, 0.0446, 0.0446, 0.0446, 0.0446,
    0.0446, 0.0446, 0.0446, 0.0446, 0.0446, 0.0223]
  else none

/-- `DepreciableAsset` dataclass. -/
structure DepreciableAsset where
  cost : ℚ
  recovery_period : ℤ
  placed_in_service_qtr : ℤ
  section179 : ℚ := 0
  use_ads : Bool := false
  state_override : Option String := none
deriving DecidableEq

/-- `AssetPool` dataclass. -/
structure AssetPool where
  assets : List DepreciableAsset
deriving DecidableEq

/-- `apply_section179`. -/
def apply_section179 (cost elected : ℚ) : ℚ := round2 (cost - min cost elected)

/-- `bonus_depreciation`. -/
def bonus_depreciation (basis rate : ℚ) : ℚ := round2 (basis * rate)

/-- `requires_mid_quarter`: Q4 cost fraction of the pool exceeds 40%
(`False` when the pool's total cost is falsy, i.e. zero). -/
def requires_mid_quarter (assets : List DepreciableAsset) : Bool :=
  let total := (assets.map (fun a => a.cost)).sum
  let q4 := ((assets.filter (fun a => a.placed_in_service_qtr == 4)).map
    (fun a => a.cost)).sum
  if total = 0 then false else decide ((0.40 : ℚ) < q4 / total)

/-- Python `schedule[-1] += x` on a list: add `x` to the last element. -/
def addLast : List ℚ → ℚ → List ℚ
  | [], _ => []
  | [a], x => [a + x]
  | a :: b :: rest, x => a :: addLast (b :: rest) x

/-- `ads_schedule`: straight line over the recovery period, with the
rounding remainder folded into the final year. A non-positive period
fails (`ZeroDivisionError` for 0, `IndexError` on the empty schedule for
a negative period). -/
def ads_schedule (basis : ℚ) (recovery_period : ℤ) : Option (List ℚ) :=
  if recovery_period ≤ 0 then none
  else
    let annual := round2 (basis / (recovery_period : ℚ))
    let schedule := List.replicate recovery_period.toNat annual
    some (addLast schedule (round2 (basis - schedule.sum)))

/-- `macrs_schedule`: per-year cents-rounded table percentages of the
basis, with the rounding remainder folded into the final year. An
unsupported recovery period is a failed table lookup. -/
def macrs_schedule (basis : ℚ) (recovery_period : ℤ) : Option (List ℚ) :=
  (MACRS_GDS_HALF_YEAR recovery_period).map fun rates =>
    let schedule := rates.map fun r => round2 (basis * r)
    addLast schedule (round2 (basis - schedule.sum))

/-- Per-asset result dict produced by `depreciate_asset`. -/
structure AssetDep where
  cost : ℚ
  section179 : ℚ
  bonus : ℚ
  remaining_basis : ℚ
  schedule : List ℚ
  total_depreciation : ℚ
deriving DecidableEq

/-- `depreciate_asset`. The `use_mid_quarter` parameter is accepted but
never read by the source function's body. -/
def depreciate_asset (asset : DepreciableAsset) (bonus_rate : ℚ)
    (use_mid_quarter : Bool) : Option AssetDep :=
  let basis := apply_section179 asset.cost asset.section179
  let bonus := bonus_depreciation basis bonus_rate
  let basis2 := basis - bonus
  (if asset.use_ads then ads_schedule basis2 asset.recovery_period
   else macrs_schedule basis2 asset.recovery_period).map fun schedule =>
    { cost := asset.cost
      section179 := min asset.cost asset.section179
      bonus := bonus
      remaining_basis := basis2
      schedule := schedule
      total_depreciation :=
        round2 (min asset.cost asset.section179 + bonus + schedule.sum) }

/-- `tax_config` mapping: `bonus_rate` is read with a bare index,
`state_bonus_rate` with `.get(…, 0.0)`. -/
structure TaxConfig where
  bonus_rate : ℚ
  state_bonus_rate : Option ℚ := none
deriving DecidableEq

/-- Result of `depreciate_pool`: the `federal`/`state` lists. -/
structure DepPools where
  federal : List AssetDep
  state : List AssetDep
deriving DecidableEq

/-- Map a fallible function over a list, failing if any element fails
(a Python `for` loop building a result list, where an exception anywhere
aborts the whole loop). -/
def mapOption (f : α → Option β) : List α → Option (List β)
  | [] => some []
  | a :: l =>
      (f a).bind fun b => (mapOption f l).map fun bs => b :: bs

/-- `depreciate_pool`: per-asset federal and state results. -/
def depreciate_pool (pool : AssetPool) (tax_config : TaxConfig) :
    Option DepPools :=
  let mid_q := requires_mid_quarter pool.assets
  let bonus_rate := tax_config.bonus_rate
  let state_bonus := tax_config.state_bonus_rate.getD 0
  (mapOption (fun a => depreciate_asset a bonus_rate mid_q) pool.assets).bind
    fun federal =>
      (mapOption (fun a => depreciate_asset a state_bonus mid_q)
        pool.assets).map fun state => { federal := federal, state := state }

/-! ## Audit risk engine (`audit_rules.py`) -/

/-- `AuditFlag` dataclass. -/
structure AuditFlag where
  code : String
  description : String
  severity : ℤ
  score_impact : ℤ
deriving DecidableEq

/-- `AuditResult` dataclass. -/
structure AuditResult where
  total_score : ℤ
  flags : List AuditFlag
  risk_level : String
deriving DecidableEq

/-- `audit_config` mapping: `section179_soft_limit` read with
`.get(…, 1_000_000)`. -/
structure AuditConfig where
  section179_soft_limit : Option ℚ := none
deriving DecidableEq

/-- `rule_excessive_section179`. -/
def rule_excessive_section179 (config : AuditConfig)
    (assets : List AssetDep) : List AuditFlag :=
  let limit := config.section179_soft_limit.getD 1000000
  let total_179 := (assets.map (fun a => a.section179)).sum
  if limit < total_179 then
    [{ code := "DEP179_HIGH"
       description := "Section 179 deduction unusually high"
       severity := 8, score_impact := 20 }]
  else []

/-- `rule_bonus_depreciation_heavy`. -/
def rule_bonus_depreciation_heavy (assets : List AssetDep) : List AuditFlag :=
  let bonus_total := (assets.map (fun a => a.bonus)).sum
  let cost_total := (assets.map (fun a => a.cost)).sum
  if 0 < cost_total ∧ (0.8 : ℚ) < bonus_total / cost_total then
    [{ code := "BONUS_HEAVY"
       description := "Bonus depreciation exceeds 80% of asset cost"
       severity := 6, score_impact := 15 }]
  else []

/-- `rule_short_lived_assets` (the loop breaks after the first hit, so
at most one flag is emitted). -/
def rule_short_lived_assets (assets : List AssetDep) : List AuditFlag :=
  if assets.any (fun a => a.schedule.length ≤ 3) then
    [{ code := "SHORT_RECOVERY"
       description := "High concentration of short recovery assets"
       severity := 5, score_impact := 10 }]
  else []

/-- `rule_large_year_over_year_change` (audit engine variant). -/
def rule_large_yoy_change_audit (prior_year_depreciation : Option ℚ)
    (current_year_depreciation : ℚ) : List AuditFlag :=
  match prior_year_depreciation with
  | none => []
  | some prior =>
      if prior = 0 then []
      else if (2.5 : ℚ) < current_year_depreciation / prior then
        [{ code := "YOY_SPIKE"
           description := "Depreciation expense increased sharply year-over-year"
           severity := 7, score_impact := 18 }]
      else []

/-- `rule_state_federal_mismatch`. -/
def rule_state_federal_mismatch (federal_total state_total : ℚ) :
    List AuditFlag :=
  if federal_total = 0 then []
  else if (0.5 : ℚ) < |federal_total - state_total| / federal_total then
    [{ code := "STATE_MISMATCH"
       description := "Large divergence between federal and state depreciation"
       severity := 6, score_impact := 12 }]
  else []

/-- `AuditRiskEngine.score`: sum of impacts capped at 100, mapped to a
risk level by fixed breakpoints. -/
def audit_score (flags : List AuditFlag) : AuditResult :=
  let total := (flags.map (fun f => f.score_impact)).sum
  let capped := min 100 total
  let level :=
    if capped < 25 then "LOW"
    else if capped < 50 then "MODERATE"
    else if capped < 75 then "HIGH"
    else "SEVERE"
  { total_score := capped, flags := flags, risk_level := level }

/-- Total depreciation of an asset list as summed by `run_audit`. -/
def audit_dep_total (assets : List AssetDep) : ℚ :=
  (assets.map (fun a => a.schedule.sum + a.section179 + a.bonus)).sum

/-- `run_audit`. -/
def run_audit (federal_assets state_assets : List AssetDep)
    (config : AuditConfig) (prior_year_depreciation : Option ℚ) :
    AuditResult :=
  let federal_total := audit_dep_total federal_assets
  let state_total := audit_dep_total state_assets
  audit_score
    (rule_excessive_section179 config federal_assets
      ++ rule_bonus_depreciation_heavy federal_assets
      ++ rule_short_lived_assets federal_assets
      ++ rule_large_yoy_change_audit prior_year_depreciation federal_total
      ++ rule_state_federal_mismatch federal_total state_total)

/-! ## Tax engine (`tax_engine.py`) -/

/-- The polymorphic income forms (`W2`, `Form1099NEC`, `Form1099INT`,
`Form1099DIV`, `ScheduleC`). -/
inductive TaxForm where
  | w2 (employer_ein : String) (wages federal_withheld state_withheld : ℚ)
  | form1099nec (payer_tin : String) (nonemployee_comp : ℚ)
  | form1099int (payer_tin : String) (interest_income : ℚ)
  | form1099div (payer_tin : String) (ordinary_dividends : ℚ)
  | scheduleC (gross_receipts expenses : ℚ)
deriving DecidableEq

/-- `Taxpayer` dataclass. -/
structure Taxpayer where
  taxpayer_id : String
  filing_status : String
  forms : List TaxForm := []
  assets : List DepreciableAsset := []
  itemized_deductions : ℚ := 0
  prior_year_depreciation : Option ℚ := none
deriving DecidableEq

/-- Income buckets produced by `IncomeNormalizer.normalize`. -/
structure IncomeBuckets where
  wages : ℚ := 0
  self_employment : ℚ := 0
  interest : ℚ := 0
  dividends : ℚ := 0
  business_income : ℚ := 0
  withholding_federal : ℚ := 0
  withholding_state : ℚ := 0
deriving DecidableEq

/-- Add one form into the buckets (one branch of the normalizer's
`isinstance` dispatch). -/
def addForm (b : IncomeBuckets) : TaxForm → IncomeBuckets
  | .w2 _ wages fed st =>
      { b with wages := b.wages + wages
               withholding_federal := b.withholding_federal + fed
               withholding_state := b.withholding_state + st }
  | .form1099nec _ comp =>
      { b with self_employment := b.self_employment + comp }
  | .scheduleC gross expenses =>
      { b with business_income := b.business_income + (gross - expenses) }
  | .form1099int _ interest =>
      { b with interest := b.interest + interest }
  | .form1099div _ div =>
      { b with dividends := b.dividends + div }

/-- `IncomeNormalizer.normalize`: fold the forms into zeroed buckets. -/
def IncomeNormalizer.normalize (forms : List TaxForm) : IncomeBuckets :=
  forms.foldl addForm {}

/-- The tax engine's own `STANDARD_DEDUCTION` table (`tax_engine.py`,
2024 amounts; note it has no `MARRIED_SEPARATE` entry). -/
def STANDARD_DEDUCTION : List (String × ℚ) :=
  [("SINGLE", 14600), ("MARRIED_JOINT", 29200), ("HEAD_OF_HOUSEHOLD", 21900)]

/-- `STANDARD_DEDUCTION.get(filing_status, 0)`. -/
def engine_standard_deduction (filing_status : String) : ℚ :=
  (STANDARD_DEDUCTION.lookup filing_status).getD 0

/-- `compute_se_tax`: simplified SE tax, zero for a non-positive base. -/
def compute_se_tax (net_se_income : ℚ) : ℚ :=
  if net_se_income ≤ 0 then 0
  else round2 (net_se_income * 0.9235 * 0.153)

/-- Income dict produced by `TaxEngine.compute_income`: the normalized
buckets plus the `total_income` entry. -/
structure Income extends IncomeBuckets where
  total_income : ℚ
deriving DecidableEq

/-- `TaxEngine.compute_income`. -/
def compute_income (taxpayer : Taxpayer) : Income :=
  let b := IncomeNormalizer.normalize taxpayer.forms
  { b with
    total_income := round2 (b.wages + b.self_employment + b.business_income
      + b.interest + b.dividends) }

/-- Deductions dict produced by `TaxEngine.compute_deductions`. -/
structure DeductionsOut where
  standard_deduction : ℚ
  itemized_deductions : ℚ
  deduction_taken : ℚ
deriving DecidableEq

/-- `TaxEngine.compute_deductions`: the engine's own table with default
0 for an unknown status, then `max(standard, itemized)`. -/
def compute_deductions (taxpayer : Taxpayer) : DeductionsOut :=
  let standard := engine_standard_deduction taxpayer.filing_status
  let deduction_used := max standard taxpayer.itemized_deductions
  { standard_deduction := standard
    itemized_deductions := taxpayer.itemized_deductions
    deduction_taken := deduction_used }

/-- `TaxEngine.compute_depreciation`. -/
def compute_depreciation (taxpayer : Taxpayer) (tax_config : TaxConfig) :
    Option DepPools :=
  depreciate_pool { assets := taxpayer.assets } tax_config

/-- The dict returned by `TaxEngine.run_return`. -/
structure ComputedReturn where
  taxpayer_id : String
  filing_status : String
  income : Income
  deductions : DeductionsOut
  self_employment_tax : ℚ
  taxable_income : ℚ
  depreciation : DepPools
  audit : AuditResult
deriving DecidableEq

/-- `TaxEngine.run_return`: the straight-line pipeline. The only
fallible stage is depreciation (an unsupported MACRS recovery period or
a non-positive ADS period propagates and aborts the pipeline). -/
def run_return (taxpayer : Taxpayer) (tax_config : TaxConfig)
    (audit_config : AuditConfig) : Option ComputedReturn :=
  let income := compute_income taxpayer
  let deductions := compute_deductions taxpayer
  (compute_depreciation taxpayer tax_config).map fun depreciation =>
    let se_tax := compute_se_tax
      (income.self_employment + income.business_income)
    let taxable_income := max 0 (income.total_income
      - deductions.deduction_taken)
    let audit := run_audit depreciation.federal depreciation.state
      audit_config taxpayer.prior_year_depreciation
    { taxpayer_id := taxpayer.taxpayer_id
      filing_status := taxpayer.filing_status
      income := income
      deductions := deductions
      self_employment_tax := se_tax
      taxable_income := round2 taxable_income
      depreciation := depreciation
      audit := audit }

/-! ## Deductions module (`deductions.py`) -/

/-- `STANDARD_DEDUCTIONS` table of `deductions.py` (2023 amounts,
lower-case keys, including `married_separate`). -/
def STANDARD_DEDUCTIONS : List (String × ℚ) :=
  [("single", 13850), ("married_joint", 27700), ("married_separate", 13850),
   ("head_of_household", 20800)]

/-- Python's `str.lower()` on the (ASCII) filing-status strings,
character by character. -/
def pyLower (s : String) : String := ⟨s.data.map Char.toLower⟩

/-- `get_standard_deduction`: lower-cases the status and looks it up,
raising `ValueError` (modelled as `none`) on an unknown status. -/
def get_standard_deduction (filing_status : String) : Option ℚ :=
  STANDARD_DEDUCTIONS.lookup (pyLower filing_status)

/-- `ItemizedDeductions` dataclass. -/
structure ItemizedDeductions where
  medical_expenses : ℚ := 0
  state_local_taxes : ℚ := 0
  mortgage_interest : ℚ := 0
  charitable_contributions : ℚ := 0
  casualty_losses : ℚ := 0
deriving DecidableEq

/-- `SALT_CAP`. -/
def SALT_CAP : ℚ := 10000

/-- `calculate_itemized_deductions`: medical above a 7.5%-of-AGI floor,
SALT capped (but not floored), the other three components floored at
zero. Negative AGI raises `ValueError` (modelled as `none`). -/
def calculate_itemized_deductions (d : ItemizedDeductions)
    (adjusted_gross_income : ℚ) : Option ℚ :=
  if adjusted_gross_income < 0 then none
  else
    let medical_threshold := 0.075 * adjusted_gross_income
    let allowable_medical := max 0 (d.medical_expenses - medical_threshold)
    let allowable_salt := min d.state_local_taxes SALT_CAP
    some (round2 (allowable_medical + allowable_salt
      + max 0 d.mortgage_interest
      + max 0 d.charitable_contributions
      + max 0 d.casualty_losses))

/-! ## Dict-shaped IRS returns (inputs to `compliance.py` and
`risk_scoring.py`) -/

/-- A form dict inside an IRS-return dict: the value of its `"Form"`
key (absent allowed) and its numeric line-item entries. A numeric key
read with `.get(k, 0)` defaults to 0 when absent. -/
structure IRSForm where
  name : Option String := none
  fields : List (String × ℚ) := []
deriving DecidableEq

/-- `f.get(k, 0)` for a numeric key of a form dict. -/
def getNum (f : IRSForm) (k : String) : ℚ := (f.fields.lookup k).getD 0

/-- An IRS-return dict: the value of its `"Forms"` key
(`irs_return.get("Forms", [])`). -/
structure IRSReturn where
  forms : List IRSForm := []
deriving DecidableEq

/-- The dict comprehension `{f.get("Form"): f for f in forms}` followed
by a lookup of `name`: the last form whose `"Form"` value is `name`
(later forms overwrite earlier ones). -/
def lastFormNamed (forms : List IRSForm) (name : String) : Option IRSForm :=
  forms.foldl (fun acc f => if f.name == some name then some f else acc) none

/-- `name` is in the set `{f.get("Form") for f in forms}`. -/
def hasFormNamed (forms : List IRSForm) (name : String) : Bool :=
  forms.any fun f => f.name == some name

/-! ## Compliance engine (`compliance.py`) -/

/-- `ComplianceIssue` dataclass. -/
structure ComplianceIssue where
  code : String
  message : String
  severity : String
deriving DecidableEq

/-- `ComplianceResult` dataclass. -/
structure ComplianceResult where
  compliant : Bool
  issues : List ComplianceIssue
deriving DecidableEq

/-- `SECTION_179_LIMIT` of `compliance.py`. -/
def SECTION_179_LIMIT : ℚ := 1220000

/-- `validate_required_forms`. -/
def validate_required_forms (forms : List IRSForm) : List ComplianceIssue :=
  (if hasFormNamed forms "4562" ∧ ¬ hasFormNamed forms "Schedule C" then
    [{ code := "FORM_DEP_MISSING_SC"
       message := "Form 4562 present without Schedule C"
       severity := "ERROR" }]
  else [])
  ++
  (if hasFormNamed forms "Schedule SE" ∧ ¬ hasFormNamed forms "Schedule C" then
    [{ code := "FORM_SE_MISSING_SC"
       message := "Schedule SE requires Schedule C"
       severity := "ERROR" }]
  else [])

/-- `validate_section179`. -/
def validate_section179 (form_4562 : IRSForm) : List ComplianceIssue :=
  let sec179 := getNum form_4562 "Part I Section 179"
  (if sec179 < 0 then
    [{ code := "179_NEGATIVE"
       message := "Section 179 deduction cannot be negative"
       severity := "ERROR" }]
  else [])
  ++
  (if SECTION_179_LIMIT < sec179 then
    [{ code := "179_LIMIT_EXCEEDED"
       message := "Section 179 exceeds IRS annual limit"
       severity := "ERROR" }]
  else [])

/-- `validate_bonus_depreciation`. -/
def validate_bonus_depreciation (form_4562 : IRSForm) : List ComplianceIssue :=
  if getNum form_4562 "Part II Bonus Depreciation" < 0 then
    [{ code := "BONUS_NEGATIVE"
       message := "Bonus depreciation cannot be negative"
       severity := "ERROR" }]
  else []

/-- `validate_schedule_c`. -/
def validate_schedule_c (schedule_c : IRSForm) : List ComplianceIssue :=
  if getNum schedule_c "Net Profit" < 0 then
    [{ code := "SC_NEGATIVE_PROFIT"
       message := "Schedule C net loss detected (allowed, flagged)"
       severity := "INFO" }]
  else []

/-- `validate_schedule_se`. -/
def validate_schedule_se (schedule_se schedule_c : IRSForm) :
    List ComplianceIssue :=
  let se_tax := getNum schedule_se "Line 12"
  let net_profit := getNum schedule_c "Net Profit"
  let expected_base := max 0 (net_profit * 0.9235)
  let expected_tax := round2 (expected_base * 0.153)
  if 5 < |se_tax - expected_tax| then
    [{ code := "SE_TAX_MISMATCH"
       message := "Schedule SE tax does not match Schedule C income"
       severity := "ERROR" }]
  else []

/-- `validate_1040`. -/
def validate_1040 (form_1040 : IRSForm) : List ComplianceIssue :=
  let total_income := getNum form_1040 "Line 9"
  let taxable_income := getNum form_1040 "Line 15"
  (if total_income < 0 then
    [{ code := "1040_NEG_INCOME"
       message := "Total income cannot be negative"
       severity := "ERROR" }]
  else [])
  ++
  (if taxable_income < 0 then
    [{ code := "1040_NEG_TAXABLE"
       message := "Taxable income cannot be negative"
       severity := "ERROR" }]
  else [])
  ++
  (if total_income < taxable_income then
    [{ code := "1040_INVALID_TAXABLE"
       message := "Taxable income exceeds total income"
       severity := "ERROR" }]
  else [])

/-- `run_compliance_check`. -/
def run_compliance_check (irs_return : IRSReturn) : ComplianceResult :=
  let forms := irs_return.forms
  let issues :=
    validate_required_forms forms
    ++ (match lastFormNamed forms "4562" with
        | some f => validate_section179 f ++ validate_bonus_depreciation f
        | none => [])
    ++ (match lastFormNamed forms "Schedule C" with
        | some f => validate_schedule_c f
        | none => [])
    ++ (match lastFormNamed forms "Schedule SE", lastFormNamed forms "Schedule C" with
        | some se, some sc => validate_schedule_se se sc
        | _, _ => [])
    ++ (match lastFormNamed forms "1040" with
        | some f => validate_1040 f
        | none => [])
  { compliant := !(issues.any fun i => i.severity == "ERROR")
    issues := issues }

/-! ## Risk scoring engine (`risk_scoring.py`) -/

/-- `RiskFlag` dataclass. -/
structure RiskFlag where
  code : String
  description : String
  severity : ℤ
  score_impact : ℤ
deriving DecidableEq

/-- `RiskScore` dataclass. -/
structure RiskScore where
  total_score : ℤ
  risk_level : String
  flags : List RiskFlag
deriving DecidableEq

/-- Python `a % b` on numbers (sign follows the divisor); used by the
round-number rule with divisor 1000. -/
def pymod (a b : ℚ) : ℚ := a - b * (qfloor (a / b) : ℚ)

/-- `rule_high_section179`. -/
def rule_high_section179 (form_4562 : IRSForm) (total_income : ℚ) :
    List RiskFlag :=
  let sec179 := getNum form_4562 "Part I Section 179"
  if 0 < total_income ∧ (0.50 : ℚ) < sec179 / total_income then
    [{ code := "R179_RATIO_HIGH"
       description := "Section 179 exceeds 50% of total income"
       severity := 9, score_impact := 25 }]
  else []

/-- `rule_bonus_heavy`. -/
def rule_bonus_heavy (form_4562 : IRSForm) : List RiskFlag :=
  if 0 < getNum form_4562 "Part II Bonus Depreciation" then
    [{ code := "BONUS_USED"
       description := "Bonus depreciation claimed"
       severity := 5, score_impact := 10 }]
  else []

/-- `rule_schedule_c_loss`. -/
def rule_schedule_c_loss (schedule_c : IRSForm) : List RiskFlag :=
  if getNum schedule_c "Net Profit" < 0 then
    [{ code := "SC_LOSS"
       description := "Schedule C net loss reported"
       severity := 7, score_impact := 18 }]
  else []

/-- `rule_round_number_income` (`net_profit` truthy and divisible by
1000). -/
def rule_round_number_income (schedule_c : IRSForm) : List RiskFlag :=
  let net_profit := getNum schedule_c "Net Profit"
  if net_profit ≠ 0 ∧ pymod net_profit 1000 = 0 then
    [{ code := "SC_ROUND_NUM"
       description := "Schedule C net profit is a round number"
       severity := 4, score_impact := 8 }]
  else []

/-- `rule_deductions_exceed_income`: fires only when the total income is
strictly positive AND deductions exceed it. -/
def rule_deductions_exceed_income (total_income deductions : ℚ) :
    List RiskFlag :=
  if 0 < total_income ∧ total_income < deductions then
    [{ code := "DED_GT_INCOME"
       description := "Total deductions exceed total income"
       severity := 10, score_impact := 30 }]
  else []

/-- `rule_large_year_over_year_change` (risk engine variant). -/
def rule_large_yoy_change_risk (prior_year current_year : ℚ) :
    List RiskFlag :=
  if prior_year ≤ 0 then []
  else if (3 : ℚ) < current_year / prior_year then
    [{ code := "YOY_DED_SPIKE"
       description := "Large year-over-year change in deductions"
       severity := 8, score_impact := 20 }]
  else []

/-- `DeductionRiskEngine.score`. -/
def risk_score_of_flags (flags : List RiskFlag) : RiskScore :=
  let total := min 100 ((flags.map (fun f => f.score_impact)).sum)
  let level :=
    if total < 25 then "LOW"
    else if total < 50 then "MODERATE"
    else if total < 75 then "HIGH"
    else "SEVERE"
  { total_score := total, risk_level := level, flags := flags }

/-- `run_risk_scoring`. A form found under `forms.get(name, {})` always
holds its own `"Form"` key, so it is a non-empty, truthy dict; the
`if form_4562:` / `if schedule_c:` guards therefore fire exactly when
the form is present. -/
def run_risk_scoring (irs_return : IRSReturn)
    (prior_year_deductions : ℚ) : RiskScore :=
  let forms := irs_return.forms
  let form_1040 := (lastFormNamed forms "1040").getD {}
  let total_income := getNum form_1040 "Line 9"
  let deductions := getNum form_1040 "Line 12"
  let flags :=
    (match lastFormNamed forms "4562" with
     | some f => rule_high_section179 f total_income ++ rule_bonus_heavy f
     | none => [])
    ++ (match lastFormNamed forms "Schedule C" with
        | some f => rule_schedule_c_loss f ++ rule_round_number_income f
        | none => [])
    ++ rule_deductions_exceed_income total_income deductions
    ++ (if prior_year_deductions ≠ 0 then
          rule_large_yoy_change_risk prior_year_deductions deductions
        else [])
  risk_score_of_flags flags

/-! ## Escalation engine (`escalation.py`) -/

/-- An issue dict inside the `issues` list of a compliance-result dict:
`issue["message"]` is read with a bare index (the key is assumed
present), `issue.get("severity")` with a defaulting read. -/
structure IssueDict where
  message : String := ""
  severity : Option String := none
deriving DecidableEq

/-- The compliance-result dict consumed by the escalation engine
(`.get("compliant", True)`, `.get("issues", [])`). -/
structure ComplianceDict where
  compliant : Bool := true
  issues : List IssueDict := []
deriving DecidableEq

/-- A related-flag entry attached to an escalation case: either a
`{"message": …}` dict, a `{"reason": …}` dict, or a flag dict passed
through unchanged from the risk-score dict. -/
inductive RelFlag where
  | message (m : String)
  | reason (r : Option String)
  | passed (entries : List (String × String))
deriving DecidableEq

/-- The risk-score dict consumed by the escalation engine
(`.get("total_score", 0)`, `.get("risk_level", "LOW")`,
`.get("flags", [])`). -/
structure RiskDict where
  total_score : ℚ := 0
  risk_level : String := "LOW"
  flags : List RelFlag := []
deriving DecidableEq

/-- The safety-result dict consumed by the escalation engine
(`.get("allowed", True)`, `.get("reason")`). -/
structure SafetyDict where
  allowed : Bool := true
  reason : Option String := none
deriving DecidableEq

/-- `EscalationCase` dataclass. -/
structure EscalationCase where
  taxpayer_id : String
  reason : String
  severity : String
  related_flags : List RelFlag := []
  notes : String := ""
deriving DecidableEq

/-- `EscalationResult` dataclass. -/
structure EscalationResult where
  needs_escalation : Bool
  cases : List EscalationCase
deriving DecidableEq

/-- `EscalationEngine.check_compliance`: appends a CRITICAL case only
when the result is non-compliant AND its issues list contains at least
one ERROR-severity issue. -/
def check_compliance (taxpayer_id : String)
    (compliance_result : ComplianceDict) : List EscalationCase :=
  if compliance_result.compliant then []
  else
    let errors := (compliance_result.issues.filter
      (fun i => i.severity == some "ERROR")).map fun i => i.message
    if errors.isEmpty then []
    else
      [{ taxpayer_id := taxpayer_id
         reason := "Compliance validation failure"
         severity := "CRITICAL"
         related_flags := errors.map RelFlag.message
         notes := "Return violates IRS structural rules" }]

/-- `EscalationEngine.check_risk`. -/
def check_risk (taxpayer_id : String) (risk_score : RiskDict) :
    List EscalationCase :=
  let score := risk_score.total_score
  let level := risk_score.risk_level
  if level = "HIGH" ∨ level = "SEVERE" ∨ 50 ≤ score then
    [{ taxpayer_id := taxpayer_id
       reason := "High deduction or audit risk"
       severity := if level = "HIGH" then "HIGH" else "CRITICAL"
       related_flags := risk_score.flags
       notes := "Total risk score: " ++ toString score
         ++ ", risk level: " ++ level }]
  else []

/-- `EscalationEngine.check_safety`. -/
def check_safety (taxpayer_id : String) (safety_result : SafetyDict) :
    List EscalationCase :=
  if safety_result.allowed then []
  else
    [{ taxpayer_id := taxpayer_id
       reason := "Safety gate triggered"
       severity := "CRITICAL"
       related_flags := [RelFlag.reason safety_result.reason]
       notes := "AI-generated content could be unsafe or illegal" }]

/-- `evaluate_for_escalation` / `EscalationEngine.run_escalation`: runs
the three checks in order on a fresh engine and unions their cases;
`needs_escalation = bool(cases)`. -/
def evaluate_for_escalation (taxpayer_id : String)
    (compliance_result : ComplianceDict) (risk_score : RiskDict)
    (safety_result : SafetyDict) : EscalationResult :=
  let cases := check_compliance taxpayer_id compliance_result
    ++ check_risk taxpayer_id risk_score
    ++ check_safety taxpayer_id safety_result
  { needs_escalation := !cases.isEmpty, cases := cases }

/-! ## Relations and concrete inputs used by the claims -/

/-- Two depreciable assets that agree on every field except (possibly)
`placed_in_service_qtr`. -/
def sameExceptQtr (a b : DepreciableAsset) : Prop :=
  a.cost = b.cost ∧ a.recovery_period = b.recovery_period
  ∧ a.section179 = b.section179 ∧ a.use_ads = b.use_ads
  ∧ a.state_override = b.state_override

/-- A tax configuration with a 60% federal bonus rate (the value used by
the repository's own integration example). -/
def cfg60 : TaxConfig := { bonus_rate := 0.6 }

/-- A taxpayer with no forms and no assets. -/
def simpleTaxpayer : Taxpayer := { taxpayer_id := "t", filing_status := "SINGLE" }

/-- The return `run_return` computes for `simpleTaxpayer` under `cfg60`. -/
def simpleReturn : ComputedReturn :=
  { taxpayer_id := "t"
    filing_status := "SINGLE"
    income := { total_income := 0 }
    deductions := { standard_deduction := 14600, itemized_deductions := 0,
                    deduction_taken := 14600 }
    self_employment_tax := 0
    taxable_income := 0
    depreciation := { federal := [], state := [] }
    audit := { total_score := 0, flags := [], risk_level := "LOW" } }

/-- A taxpayer whose only form is a Schedule C loss of $10,000. -/
def lossTaxpayer : Taxpayer :=
  { taxpayer_id := "t", filing_status := "SINGLE"
    forms := [.scheduleC 0 10000] }

/-- A MACRS asset with the unsupported 4-year recovery period. -/
def badAsset : DepreciableAsset :=
  { cost := 1000, recovery_period := 4, placed_in_service_qtr := 1 }

/-- A taxpayer owning `badAsset`. -/
def badAssetTaxpayer : Taxpayer :=
  { taxpayer_id := "t", filing_status := "SINGLE", assets := [badAsset] }

/-- A taxpayer whose only form is a Schedule C loss of $10,000,000
(chosen so that the SE-tax product is an exact whole number). -/
def hugeLossTaxpayer : Taxpayer :=
  { taxpayer_id := "t", filing_status := "SINGLE"
    forms := [.scheduleC 0 10000000] }

/-- A taxpayer with $1000 of wages and a $10,000 Schedule C loss. -/
def bigLossTaxpayer : Taxpayer :=
  { taxpayer_id := "t", filing_status := "SINGLE"
    forms := [.w2 "e" 1000 0 0, .scheduleC 0 10000] }

/-- An IRS-return dict with a Form 4562 and nothing else. -/
def bare4562Return : IRSReturn := { forms := [{ name := some "4562" }] }

/-- An IRS-return dict whose 1040 reports zero total income and positive
deductions. -/
def zeroIncomeReturn : IRSReturn :=
  { forms := [{ name := some "1040"
                fields := [("Line 9", 0), ("Line 12", 5)] }] }

/-- An IRS-return dict whose 1040 reports $100 of income and $500 of
deductions. -/
def posIncomeReturn : IRSReturn :=
  { forms := [{ name := some "1040"
                fields := [("Line 9", 100), ("Line 12", 500)] }] }

/-! ## Helper lemmas -/

theorem addLast_sum (x : ℚ) (l : List ℚ) (h : l ≠ []) :
    (addLast l x).sum = l.sum + x := by
  induction l with
  | nil => exact absurd rfl h
  | cons a t ih =>
      cases t with
      | nil => simp [addLast]
      | cons b r =>
          rw [show addLast (a :: b :: r) x = a :: addLast (b :: r) x from rfl]
          simp only [List.sum_cons]
          rw [ih (by simp)]
          simp only [List.sum_cons]
          ring

theorem macrs_rates_ne_nil {p : ℤ} {rates : List ℚ}
    (h : MACRS_GDS_HALF_YEAR p = some rates) : rates ≠ [] := by
  unfold MACRS_GDS_HALF_YEAR at h
  repeat' split at h
  all_goals cases h
  all_goals simp

theorem mapOption_congr {f g : α → Option β} {l1 l2 : List α}
    (R : α → α → Prop) (hR : List.Forall₂ R l1 l2)
    (hfg : ∀ a b, R a b → f a = g b) :
    mapOption f l1 = mapOption g l2 := by
  induction hR with
  | nil => rfl
  | cons hab _ ih => simp only [mapOption, hfg _ _ hab, ih]

theorem mapOption_eq_none {f : α → Option β} {l : List α} {a : α}
    (ha : a ∈ l) (hfa : f a = none) : mapOption f l = none := by
  induction l with
  | nil => cases ha
  | cons x xs ih =>
      rcases List.mem_cons.mp ha with rfl | hmem
      · simp [mapOption, hfa]
      · cases hx : f x with
        | none => simp [mapOption, hx]
        | some b => simp [mapOption, hx, ih hmem]

/-! ## Claims -/

/-- C1 (counterexample): for a SINGLE filer with no itemized deductions,
`TaxEngine.compute_deductions` takes a deduction of 14600 (its own 2024
table), while `get_standard_deduction` returns 13850 (the 2023 table of
`deductions.py`), so the deduction taken is not
`max(get_standard_deduction(status), itemized)`. -/
theorem compute_deductions_differs_from_get_standard_deduction :
    (compute_deductions { taxpayer_id := "t", filing_status := "SINGLE" }).deduction_taken = 14600
    ∧ get_standard_deduction "SINGLE" = some 13850
    ∧ (14600 : ℚ) ≠ max 13850 0 := by
  refine ⟨by decide, by decide, by norm_num⟩

/-- C1 (amended, to accompany the counterexample): the two standard
deduction tables really disagree on every shared status. -/
theorem engine_table_ne_deductions_table :
    engine_standard_deduction "SINGLE" = 14600
    ∧ get_standard_deduction "MARRIED_SEPARATE" = some 13850
    ∧ engine_standard_deduction "MARRIED_SEPARATE" = 0 := by
  refine ⟨by decide, by decide, by decide⟩

/-- C1 (amended): for every taxpayer, the deduction taken by
`TaxEngine.compute_deductions` equals the maximum of the engine's own
`STANDARD_DEDUCTION` table value for the filing status (0 when the
status is not in that table) and the taxpayer's itemized total. -/
theorem compute_deductions_takes_max (t : Taxpayer) :
    (compute_deductions t).deduction_taken
      = max (engine_standard_deduction t.filing_status)
          t.itemized_deductions := rfl

/-- C7 (counterexample): a negative SALT entry is not floored at zero:
with AGI 0 and `state_local_taxes = -100`, the itemized total is -100,
while zeroing the negative entry yields 0. -/
theorem itemized_negative_salt_reduces_total :
    calculate_itemized_deductions { state_local_taxes := -100 } 0 = some (-100)
    ∧ calculate_itemized_deductions { state_local_taxes := 0 } 0 = some 0
    ∧ ((-100 : ℚ)) ≠ 0 := by
  have e1 : round2 (-100 : ℚ) = -100 := round2_eq_of _ (-10000) (by norm_num)
  have e0 : round2 (0 : ℚ) = 0 := round2_zero
  refine ⟨?_, ?_, by norm_num⟩
  · simp only [calculate_itemized_deductions, SALT_CAP]
    norm_num [e1]
  · simp only [calculate_itemized_deductions, SALT_CAP]
    norm_num [e0]

/-- C7 (amended): for every `ItemizedDeductions` value and nonnegative
AGI, zeroing any negative medical, mortgage, charitable or casualty
entry leaves `calculate_itemized_deductions` unchanged (those four
components are individually floored at zero); the SALT component is
only capped, not floored, so a negative SALT entry does reduce the
total. -/
theorem calculate_itemized_deductions_floors_except_salt
    (d : ItemizedDeductions) (agi : ℚ) (h : 0 ≤ agi) :
    calculate_itemized_deductions
      { medical_expenses := max 0 d.medical_expenses
        state_local_taxes := d.state_local_taxes
        mortgage_interest := max 0 d.mortgage_interest
        charitable_contributions := max 0 d.charitable_contributions
        casualty_losses := max 0 d.casualty_losses } agi
      = calculate_itemized_deductions d agi := by
  have hmax : ∀ x : ℚ, max 0 (max 0 x) = max 0 x := fun x => by
    rw [← max_assoc, max_self]
  have hmed : max 0 (max 0 d.medical_expenses - 0.075 * agi)
      = max 0 (d.medical_expenses - 0.075 * agi) := by
    rcases le_or_lt 0 d.medical_expenses with hm | hm
    · rw [max_eq_right hm]
    · have h1 : max 0 d.medical_expenses = 0 := max_eq_left hm.le
      have h2 : (0 : ℚ) - 0.075 * agi ≤ 0 := by nlinarith
      have h3 : d.medical_expenses - 0.075 * agi ≤ 0 := by nlinarith
      rw [h1, max_eq_left h2, max_eq_left h3]
  simp only [calculate_itemized_deductions]
  rw [if_neg (not_lt.2 h), if_neg (not_lt.2 h)]
  simp only [hmed, hmax]

/-- C7 (amended, witness): the amended claim at a concrete input with
every non-SALT component negative and AGI 100. -/
theorem calculate_itemized_deductions_floors_witness :
    (0 : ℚ) ≤ 100
    ∧ calculate_itemized_deductions
        { medical_expenses := max 0 (-50)
          state_local_taxes := 200
          mortgage_interest := max 0 (-10)
          charitable_contributions := max 0 (-20)
          casualty_losses := max 0 (-30) } 100
      = calculate_itemized_deductions
        { medical_expenses := -50
          state_local_taxes := 200
          mortgage_interest := -10
          charitable_contributions := -20
          casualty_losses := -30 } 100 :=
  ⟨by norm_num,
   calculate_itemized_deductions_floors_except_salt
     { medical_expenses := -50, state_local_taxes := 200
       mortgage_interest := -10, charitable_contributions := -20
       casualty_losses := -30 } 100 (by norm_num)⟩

/-- C10: the income normalizer and `TaxEngine.compute_income` do not
floor business income or total income at zero: a taxpayer whose
Schedule C expenses exceed gross receipts by more than all other income
combined gets a negative business-income bucket and a negative
`total_income`. -/
theorem compute_income_negative_total :
    (compute_income bigLossTaxpayer).business_income = -10000
    ∧ (compute_income bigLossTaxpayer).total_income = -9000
    ∧ ((-9000 : ℚ)) < 0 := by
  have e : round2 (-9000 : ℚ) = -9000 := round2_eq_of _ (-900000) (by norm_num)
  refine ⟨?_, ?_, by norm_num⟩
  · simp only [bigLossTaxpayer, compute_income, IncomeNormalizer.normalize,
      List.foldl, addForm]
    norm_num
  · simp only [bigLossTaxpayer, compute_income, IncomeNormalizer.normalize,
      List.foldl, addForm]
    norm_num [e]

theorem depreciate_asset_qtr_irrelevant {a b : DepreciableAsset}
    (h : sameExceptQtr a b) (rate : ℚ) (mq mq' : Bool) :
    depreciate_asset a rate mq = depreciate_asset b rate mq' := by
  obtain ⟨h1, h2, h3, h4, _⟩ := h
  simp only [depreciate_asset, h1, h2, h3, h4]

/-- C6: for any two asset pools that differ only in the
`placed_in_service_qtr` fields of their assets, `depreciate_pool`
returns identical federal and state results: the mid-quarter boolean
computed by `requires_mid_quarter` is never threaded into schedule
selection (only the half-year tables are used). -/
theorem depreciate_pool_ignores_quarter (p1 p2 : AssetPool)
    (cfg : TaxConfig) (h : List.Forall₂ sameExceptQtr p1.assets p2.assets) :
    depreciate_pool p1 cfg = depreciate_pool p2 cfg := by
  have hswap : ∀ r : ℚ,
      mapOption (fun a => depreciate_asset a r (requires_mid_quarter p1.assets)) p1.assets
      = mapOption (fun a => depreciate_asset a r (requires_mid_quarter p2.assets)) p2.assets :=
    fun r => mapOption_congr sameExceptQtr h
      (fun a b hab => depreciate_asset_qtr_irrelevant hab r _ _)
  simp only [depreciate_pool]
  rw [hswap, hswap]

/-- C6 (witness): the quarter-independence theorem applied to two
concrete one-asset pools placed in service in Q1 and Q4. -/
theorem depreciate_pool_ignores_quarter_witness :
    List.Forall₂ sameExceptQtr
      [{ cost := 1000, recovery_period := 5, placed_in_service_qtr := 1 }]
      [{ cost := 1000, recovery_period := 5, placed_in_service_qtr := 4 }]
    ∧ depreciate_pool
        { assets := [{ cost := 1000, recovery_period := 5, placed_in_service_qtr := 1 }] } cfg60
      = depreciate_pool
        { assets := [{ cost := 1000, recovery_period := 5, placed_in_service_qtr := 4 }] } cfg60 :=
  have hf : List.Forall₂ sameExceptQtr
      [{ cost := 1000, recovery_period := 5, placed_in_service_qtr := 1 }]
      [{ cost := 1000, recovery_period := 5, placed_in_service_qtr := 4 }] :=
    List.Forall₂.cons ⟨rfl, rfl, rfl, rfl, rfl⟩ List.Forall₂.nil
  ⟨hf, depreciate_pool_ignores_quarter _ _ cfg60 hf⟩

/-- C2: for every whole-cent basis, any schedule produced by
`ads_schedule` (defined for every positive recovery period) or
`macrs_schedule` (defined exactly for the tabulated periods 3, 5, 7,
10, 15, 20) sums exactly to the basis after the rounding-remainder
correction on the final period. -/
theorem schedules_sum_to_basis (basis : ℚ) (hb : Cents basis) (p : ℤ) :
    (∀ s, ads_schedule basis p = some s → s.sum = basis)
    ∧ (∀ s, macrs_schedule basis p = some s → s.sum = basis) := by
  constructor
  · intro s hs
    unfold ads_schedule at hs
    split at hs
    · exact absurd hs (by simp)
    · rename_i hp
      have hpos : 0 < p := lt_of_not_le hp
      simp only [Option.some.injEq] at hs
      subst hs
      have hne : List.replicate p.toNat (round2 (basis / (p : ℚ))) ≠ [] := by
        intro hc
        have hlen := congrArg List.length hc
        simp only [List.length_replicate, List.length_nil] at hlen
        omega
      rw [addLast_sum _ _ hne]
      have hc : Cents (List.replicate p.toNat (round2 (basis / (p : ℚ)))).sum :=
        cents_sum fun x hx => by
          rw [List.eq_of_mem_replicate hx]
          exact cents_round2 _
      rw [round2_eq_of_cents (cents_sub hb hc)]
      ring
  · intro s hs
    unfold macrs_schedule at hs
    cases ht : MACRS_GDS_HALF_YEAR p with
    | none => rw [ht] at hs; exact absurd hs (by simp)
    | some rates =>
        rw [ht] at hs
        simp only [Option.map_some', Option.some.injEq] at hs
        subst hs
        have hne : rates.map (fun r => round2 (basis * r)) ≠ [] := by
          simp only [ne_eq, List.map_eq_nil_iff]
          exact macrs_rates_ne_nil ht
        rw [addLast_sum _ _ hne]
        have hc : Cents (rates.map (fun r => round2 (basis * r))).sum :=
          cents_sum fun x hx => by
            obtain ⟨r, _, rfl⟩ := List.mem_map.mp hx
            exact cents_round2 _
        rw [round2_eq_of_cents (cents_sub hb hc)]
        ring

/-- C2 (witness): the sum theorem applied to the whole-cent basis 100,
with the concrete ADS 4-year and MACRS 3-year schedules. -/
theorem schedules_sum_to_basis_witness :
    Cents (100 : ℚ)
    ∧ ads_schedule 100 4 = some [25, 25, 25, 25]
    ∧ ([25, 25, 25, 25] : List ℚ).sum = 100
    ∧ macrs_schedule 100 3 = some [33.33, 44.45, 14.81, 7.41]
    ∧ ([33.33, 44.45, 14.81, 7.41] : List ℚ).sum = 100 := by
  have hc : Cents (100 : ℚ) := ⟨10000, by norm_num⟩
  have ha : ads_schedule 100 4 = some [25, 25, 25, 25] := by
    have h25 : round2 (25 : ℚ) = 25 := round2_eq_of _ 2500 (by norm_num)
    simp only [ads_schedule]
    norm_num [h25, addLast, round2_zero, List.replicate]
  have hm : macrs_schedule 100 3 = some [33.33, 44.45, 14.81, 7.41] := by
    have e1 : round2 ((3333:ℚ)/100) = 3333/100 := round2_eq_of _ 3333 (by norm_num)
    have e2 : round2 ((889:ℚ)/20) = 889/20 := round2_eq_of _ 4445 (by norm_num)
    have e3 : round2 ((1481:ℚ)/100) = 1481/100 := round2_eq_of _ 1481 (by norm_num)
    have e4 : round2 ((741:ℚ)/100) = 741/100 := round2_eq_of _ 741 (by norm_num)
    simp only [macrs_schedule, MACRS_GDS_HALF_YEAR]
    norm_num [e1, e2, e3, e4, addLast, round2_zero]
  exact ⟨hc, ha, (schedules_sum_to_basis 100 hc 4).1 _ ha,
    hm, (schedules_sum_to_basis 100 hc 3).2 _ hm⟩

theorem macrs_table_none {p : ℤ} (h3 : p ≠ 3) (h5 : p ≠ 5) (h7 : p ≠ 7)
    (h10 : p ≠ 10) (h15 : p ≠ 15) (h20 : p ≠ 20) :
    MACRS_GDS_HALF_YEAR p = none := by
  simp [MACRS_GDS_HALF_YEAR, h3, h5, h7, h10, h15, h20]

/-- C8 (counterexample): an unknown filing status does not abort the
pipeline: `run_return` succeeds for a taxpayer with the unknown status
"QUALIFYING_WIDOW" (not in either deduction table) and silently uses a
standard deduction of 0. -/
theorem run_return_unknown_status_still_succeeds :
    (run_return { taxpayer_id := "t", filing_status := "QUALIFYING_WIDOW" } cfg60 {}).isSome = true
    ∧ (run_return { taxpayer_id := "t", filing_status := "QUALIFYING_WIDOW" } cfg60 {}).map
        (fun r => r.deductions.standard_deduction) = some 0
    ∧ get_standard_deduction "QUALIFYING_WIDOW" = none := by
  refine ⟨?_, ?_, by decide⟩
  · simp [run_return, compute_depreciation, depreciate_pool, mapOption]
  · simp [run_return, compute_depreciation, depreciate_pool, mapOption,
      compute_deductions, engine_standard_deduction, STANDARD_DEDUCTION,
      List.lookup]

/-- C8 (amended): a taxpayer owning a non-ADS asset whose recovery
period is not one of the tabulated MACRS periods (3, 5, 7, 10, 15, 20)
makes `run_return` fail with no partial result; an unknown filing
status, by contrast, does not raise (the engine's table lookup defaults
to 0). -/
theorem run_return_fails_on_bad_recovery_period (t : Taxpayer)
    (cfg : TaxConfig) (acfg : AuditConfig) (a : DepreciableAsset)
    (ha : a ∈ t.assets) (hads : a.use_ads = false)
    (h3 : a.recovery_period ≠ 3) (h5 : a.recovery_period ≠ 5)
    (h7 : a.recovery_period ≠ 7) (h10 : a.recovery_period ≠ 10)
    (h15 : a.recovery_period ≠ 15) (h20 : a.recovery_period ≠ 20) :
    run_return t cfg acfg = none := by
  have hasset : ∀ rate mq, depreciate_asset a rate mq = none := by
    intro rate mq
    simp only [depreciate_asset, hads, if_false, Bool.false_eq_true,
      macrs_schedule, macrs_table_none h3 h5 h7 h10 h15 h20, Option.map_none']
  have hpool : depreciate_pool { assets := t.assets } cfg = none := by
    have h1 := @mapOption_eq_none DepreciableAsset AssetDep
      (fun x => depreciate_asset x cfg.bonus_rate (requires_mid_quarter t.assets))
      t.assets a ha (hasset _ _)
    simp only [depreciate_pool, h1, Option.none_bind]
  simp only [run_return, compute_depreciation, hpool, Option.map_none']

/-- C8 (amended, witness): the failure theorem applied to a concrete
taxpayer owning a 4-year MACRS asset. -/
theorem run_return_fails_on_bad_recovery_period_witness :
    badAsset ∈ badAssetTaxpayer.assets
    ∧ run_return badAssetTaxpayer cfg60 {} = none :=
  ⟨by simp [badAssetTaxpayer], run_return_fails_on_bad_recovery_period
    badAssetTaxpayer cfg60 {} badAsset (by simp [badAssetTaxpayer]) rfl
    (by decide) (by decide) (by decide) (by decide) (by decide) (by decide)⟩

/-- C3 (counterexample): for a taxpayer whose combined self-employment
and business income is negative, `run_return` reports a
self-employment tax of 0, not the (negative) value of the claimed
formula `round((se + biz) × 0.9235 × 0.153, 2)`. -/
theorem run_return_se_tax_not_formula :
    (run_return hugeLossTaxpayer cfg60 {}).map
      (fun r => r.self_employment_tax) = some 0
    ∧ round2 (((compute_income hugeLossTaxpayer).self_employment
        + (compute_income hugeLossTaxpayer).business_income)
        * 0.9235 * 0.153) = -1412955
    ∧ (0 : ℚ) ≠ -1412955 := by
  have hb : (compute_income hugeLossTaxpayer).self_employment
      + (compute_income hugeLossTaxpayer).business_income = -10000000 := by
    simp only [hugeLossTaxpayer, compute_income, IncomeNormalizer.normalize,
      List.foldl, addForm]
    norm_num
  refine ⟨?_, ?_, by norm_num⟩
  · have hdep : compute_depreciation hugeLossTaxpayer cfg60
        = some { federal := [], state := [] } := by
      simp [compute_depreciation, depreciate_pool, mapOption, hugeLossTaxpayer]
    simp only [run_return, hdep, Option.map_some', Option.some.injEq]
    rw [hb]
    simp [compute_se_tax]
  · rw [hb, show ((-10000000 : ℚ)) * 0.9235 * 0.153 = -1412955 by norm_num,
      round2_eq_of _ (-141295500) (by norm_num)]

/-- C3 (amended): for every taxpayer for which `run_return` produces a
return, the `self_employment_tax` field equals `compute_se_tax` of the
combined self-employment and business-income buckets — i.e. the claimed
formula `round((se + biz) × 0.9235 × 0.153, 2)` when that base is
positive, and 0 when the base is zero or negative. -/
theorem run_return_se_tax_is_compute_se_tax (t : Taxpayer)
    (cfg : TaxConfig) (acfg : AuditConfig) :
    (run_return t cfg acfg).map (fun r => r.self_employment_tax)
      = (run_return t cfg acfg).map (fun _ => compute_se_tax
          ((compute_income t).self_employment
            + (compute_income t).business_income)) := by
  cases h : compute_depreciation t cfg with
  | none => simp [run_return, h]
  | some d => simp [run_return, h]

/-- The positive branch of `compute_se_tax` really is the claimed
formula. -/
theorem compute_se_tax_pos {x : ℚ} (h : 0 < x) :
    compute_se_tax x = round2 (x * 0.9235 * 0.153) := by
  rw [compute_se_tax, if_neg (not_le.2 h)]

theorem compute_se_tax_pos_witness :
    (0 : ℚ) < 10000000
    ∧ compute_se_tax 10000000 = round2 ((10000000 : ℚ) * 0.9235 * 0.153) :=
  ⟨by norm_num, compute_se_tax_pos (by norm_num)⟩

/-- C5: every IRS-return dict whose forms include one named "4562" but
none named "Schedule C" gets an ERROR-severity `FORM_DEP_MISSING_SC`
issue from `run_compliance_check`, and its result is non-compliant. -/
theorem compliance_4562_without_schedule_c (r : IRSReturn)
    (h4 : hasFormNamed r.forms "4562" = true)
    (hsc : hasFormNamed r.forms "Schedule C" = false) :
    (run_compliance_check r).compliant = false
    ∧ ∃ i ∈ (run_compliance_check r).issues,
        i.code = "FORM_DEP_MISSING_SC" ∧ i.severity = "ERROR" := by
  have hmem : ({ code := "FORM_DEP_MISSING_SC",
                 message := "Form 4562 present without Schedule C",
                 severity := "ERROR" } : ComplianceIssue)
      ∈ (run_compliance_check r).issues := by
    simp only [run_compliance_check]
    apply List.mem_append_left
    apply List.mem_append_left
    apply List.mem_append_left
    apply List.mem_append_left
    unfold validate_required_forms
    rw [if_pos ⟨h4, by simp [hsc]⟩]
    exact List.mem_append_left _ (List.mem_singleton.mpr rfl)
  constructor
  · have hany : ((run_compliance_check r).issues.any
        fun i => i.severity == "ERROR") = true :=
      List.any_eq_true.mpr ⟨_, hmem, by simp⟩
    simp only [run_compliance_check] at hany ⊢
    rw [hany]
    rfl
  · exact ⟨_, hmem, rfl, rfl⟩

/-- C5 (witness): the theorem applied to the concrete return holding a
bare Form 4562. -/
theorem compliance_4562_without_schedule_c_witness :
    hasFormNamed bare4562Return.forms "4562" = true
    ∧ hasFormNamed bare4562Return.forms "Schedule C" = false
    ∧ (run_compliance_check bare4562Return).compliant = false
    ∧ ∃ i ∈ (run_compliance_check bare4562Return).issues,
        i.code = "FORM_DEP_MISSING_SC" ∧ i.severity = "ERROR" :=
  have h4 : hasFormNamed bare4562Return.forms "4562" = true := by decide
  have hsc : hasFormNamed bare4562Return.forms "Schedule C" = false := by decide
  have h := compliance_4562_without_schedule_c bare4562Return h4 hsc
  ⟨h4, hsc, h.1, h.2⟩

/-- C9 (counterexample): `rule_deductions_exceed_income` is guarded by
`total_income > 0`: a return whose 1040 reports Line 9 = 0 and
Line 12 = 5 has deductions exceeding income, yet `run_risk_scoring`
raises no flag at all. -/
theorem risk_ded_gt_income_needs_positive_income :
    getNum ((lastFormNamed zeroIncomeReturn.forms "1040").getD {}) "Line 12" = 5
    ∧ getNum ((lastFormNamed zeroIncomeReturn.forms "1040").getD {}) "Line 9" = 0
    ∧ (run_risk_scoring zeroIncomeReturn 0).flags = []
    ∧ ¬ ∃ f ∈ (run_risk_scoring zeroIncomeReturn 0).flags,
        f.code = "DED_GT_INCOME" ∧ f.score_impact = 30 := by
  refine ⟨by decide, by decide, by decide, by decide⟩

/-- C9 (amended): for every IRS-return dict whose 1040 reports a
strictly positive total income (Line 9) that is exceeded by the
deductions line (Line 12), `run_risk_scoring` produces a
`DED_GT_INCOME` flag with `score_impact = 30`. -/
theorem risk_ded_gt_income_flag (r : IRSReturn) (prior : ℚ)
    (hpos : 0 < getNum ((lastFormNamed r.forms "1040").getD {}) "Line 9")
    (hgt : getNum ((lastFormNamed r.forms "1040").getD {}) "Line 9"
      < getNum ((lastFormNamed r.forms "1040").getD {}) "Line 12") :
    ∃ f ∈ (run_risk_scoring r prior).flags,
      f.code = "DED_GT_INCOME" ∧ f.score_impact = 30 := by
  refine ⟨{ code := "DED_GT_INCOME",
            description := "Total deductions exceed total income",
            severity := 10, score_impact := 30 }, ?_, rfl, rfl⟩
  simp only [run_risk_scoring, risk_score_of_flags]
  apply List.mem_append_left
  apply List.mem_append_right
  unfold rule_deductions_exceed_income
  rw [if_pos ⟨hpos, hgt⟩]
  exact List.mem_singleton.mpr rfl

/-- C9 (amended, witness): the flag theorem applied to a return whose
1040 reports $100 of income and $500 of deductions. -/
theorem risk_ded_gt_income_flag_witness :
    (0 : ℚ) < getNum ((lastFormNamed posIncomeReturn.forms "1040").getD {}) "Line 9"
    ∧ getNum ((lastFormNamed posIncomeReturn.forms "1040").getD {}) "Line 9"
        < getNum ((lastFormNamed posIncomeReturn.forms "1040").getD {}) "Line 12"
    ∧ ∃ f ∈ (run_risk_scoring posIncomeReturn 0).flags,
        f.code = "DED_GT_INCOME" ∧ f.score_impact = 30 :=
  have h1 : (0 : ℚ) < getNum ((lastFormNamed posIncomeReturn.forms "1040").getD {}) "Line 9" := by decide
  have h2 : getNum ((lastFormNamed posIncomeReturn.forms "1040").getD {}) "Line 9"
      < getNum ((lastFormNamed posIncomeReturn.forms "1040").getD {}) "Line 12" := by decide
  ⟨h1, h2, risk_ded_gt_income_flag posIncomeReturn 0 h1 h2⟩

/-- C4 (counterexample): a non-compliant compliance result whose issues
list contains no ERROR-severity issue (here: an empty issues list) does
not escalate: `check_compliance` is additionally guarded by `if errors`,
so `needs_escalation` is false even though `compliant` is false. -/
theorem escalation_misses_noncompliant_without_error :
    ({ compliant := false, issues := [] } : ComplianceDict).compliant = false
    ∧ (evaluate_for_escalation "t" { compliant := false, issues := [] } {} {}).needs_escalation = false := by
  refine ⟨rfl, by decide⟩

/-- C4 (amended): for every compliance-result dict with
`compliant = false` that carries at least one ERROR-severity issue — as
every non-compliant result produced by `run_compliance_check` does —
and for all risk-score and safety inputs, `evaluate_for_escalation`
returns `needs_escalation = true`. -/
theorem escalation_on_noncompliant_with_error (tid : String)
    (c : ComplianceDict) (rk : RiskDict) (s : SafetyDict)
    (hc : c.compliant = false)
    (herr : ∃ i ∈ c.issues, i.severity = some "ERROR") :
    (evaluate_for_escalation tid c rk s).needs_escalation = true := by
  obtain ⟨i, him, hsev⟩ := herr
  have hfilter : i ∈ c.issues.filter (fun j => j.severity == some "ERROR") :=
    List.mem_filter.mpr ⟨him, by simp [hsev]⟩
  have herrs : ¬ ((c.issues.filter
      (fun j => j.severity == some "ERROR")).map (fun j => j.message)).isEmpty = true := by
    simp only [List.isEmpty_iff, List.map_eq_nil_iff]
    intro hnil
    rw [hnil] at hfilter
    cases hfilter
  simp only [evaluate_for_escalation, check_compliance, hc, Bool.false_eq_true,
    if_false, if_neg herrs]
  rfl

/-- C4 (amended, witness): the escalation theorem applied to a concrete
non-compliant result carrying one ERROR issue, with default (benign)
risk and safety inputs. -/
theorem escalation_on_noncompliant_with_error_witness :
    ({ compliant := false,
       issues := [{ message := "m", severity := some "ERROR" }] } : ComplianceDict).compliant = false
    ∧ (evaluate_for_escalation "t"
        { compliant := false,
          issues := [{ message := "m", severity := some "ERROR" }] } {} {}).needs_escalation = true :=
  ⟨rfl, escalation_on_noncompliant_with_error "t"
    { compliant := false, issues := [{ message := "m", severity := some "ERROR" }] } {} {} rfl
    ⟨{ message := "m", severity := some "ERROR" }, List.mem_singleton.mpr rfl, rfl⟩⟩
